import Mathlib

/-!
Verification development for the boardfarm contingency-check orchestration and
the boardfarm3 lifecycle hook specifications.

The Python sources embedded here:
* `boardfarm/lib/hooks/contingency_checks.py` — the contingency-check composer
  (`ContingencyCheck.contingency_check`) and the individual checks
  (`DefaultChecks`, `CheckInterface`, `DNS`, `ACS`, `Cwmp`, `Multicast`);
* `boardfarm3/plugins/hookspecs/devices.py` — the lifecycle hook specifications.

Environment-requirement values (`env_req` and everything inside it) are nested
Python dict/list/str/int structures; we embed them as the inductive `Val`.
Device and server interactions (console prompts, interface addresses, ACS
calls) are external collaborators; their outcomes are oracle fields of the
`World` structure, while all control flow of the checks themselves is
translated from the source.
-/

/-- A Python value as used in environment requirements: strings, integers,
lists, and string-keyed dicts (kept as association lists in insertion order,
matching Python dict iteration order). -/
inductive Val where
  | str (s : String)
  | num (n : Int)
  | list (xs : List Val)
  | dict (kvs : List (String × Val))

/-- Python-level errors that the translated code can raise. -/
inductive PyError where
  | typeError (msg : String)
  | keyError (key : String)
  | indexError
  | attributeError (attr : String)
  | unboundLocalError (name : String)
deriving Repr, DecidableEq

/-- Exceptions raised by contingency checks: the classified boardfarm
exceptions (`ContingencyCheckError`, `SkipTest`) and unclassified Python
errors. -/
inductive CheckError where
  | contingencyCheckError (msg : String)
  | skipTest (msg : String)
  | python (e : PyError)
deriving Repr, DecidableEq

/-- Python truthiness for `Val` (`bool(v)`). -/
def pyTruthy : Val → Bool
  | .str s => !(s == "")
  | .num n => n != 0
  | .list xs => !xs.isEmpty
  | .dict kvs => !kvs.isEmpty

/-- Python `v == s` for a string literal `s`: equal strings are equal, values
of a different type are unequal (Python cross-type `==` is `False`, not an
error). -/
def valEqStr (v : Val) (s : String) : Bool :=
  match v with
  | .str t => t == s
  | _ => false

/-- Python `pat in s` for strings: substring containment (used with non-empty
`pat`). -/
def strContains (s pat : String) : Bool := (s.splitOn pat).length != 1

/-- Python `key in v`: dict key membership, list element membership, substring
test for strings; `in` on an integer raises `TypeError`. -/
def pyIn (key : String) (v : Val) : Except PyError Bool :=
  match v with
  | .dict kvs => .ok (kvs.any (fun p => p.1 == key))
  | .list xs => .ok (xs.any (fun x => valEqStr x key))
  | .str s => .ok (strContains s key)
  | .num _ => .error (.typeError "argument of type int is not iterable")

/-- Python `v[key]` for dicts: `KeyError` when absent, `TypeError` when `v` is
not subscriptable by a string. -/
def pySubscript (v : Val) (key : String) : Except PyError Val :=
  match v with
  | .dict kvs =>
    match kvs.lookup key with
    | some x => .ok x
    | none => .error (.keyError key)
  | _ => .error (.typeError "object is not subscriptable")

/-- Python `vs[0]` on a list: `IndexError` when empty. -/
def pyIndex0 (vs : List Val) : Except PyError Val :=
  match vs with
  | [] => .error .indexError
  | v :: _ => .ok v

/-- Python `v.get(key, dflt)`: only dicts have `.get`. -/
def pyDictGet (v : Val) (key : String) (dflt : Val) : Except PyError Val :=
  match v with
  | .dict kvs => .ok ((kvs.lookup key).getD dflt)
  | _ => .error (.attributeError "get")

/-- Python `v > n` against an integer: only numbers compare, anything else
raises `TypeError`. -/
def pyGtNum (v : Val) (n : Int) : Except PyError Bool :=
  match v with
  | .num m => .ok (decide (n < m))
  | _ => .error (.typeError "comparison not supported")

/-- Python `a + b` on values. -/
def pyAdd (a b : Val) : Except PyError Val :=
  match a, b with
  | .num x, .num y => .ok (.num (x + y))
  | .str x, .str y => .ok (.str (x ++ y))
  | .list x, .list y => .ok (.list (x ++ y))
  | _, _ => .error (.typeError "unsupported operand types")

/-- Replace (or add) a key in an association list, as Python dict assignment. -/
def setKv : List (String × Val) → String → Val → List (String × Val)
  | [], key, x => [(key, x)]
  | (k, v) :: rest, key, x =>
    if k == key then (key, x) :: rest else (k, v) :: setKv rest key x

/-- Python `d[key] = x` on a dict value (no-op on non-dicts, which never occurs
on the paths that use it). -/
def dictSet : Val → String → Val → Val
  | .dict kvs, key, x => .dict (setKv kvs key x)
  | v, _, _ => v

mutual

/-- Model of the `nested_lookup` library function used by
`contingency_checks.py`: collect, in document order, every value stored under
`key` anywhere in a nested dict/list document. For dicts it yields the match
for each pair and then recurses into the value; for lists it recurses into
each element. -/
def nestedLookup (key : String) : Val → List Val
  | .str _ => []
  | .num _ => []
  | .list xs => nestedLookupList key xs
  | .dict kvs => nestedLookupKvs key kvs

/-- Model of `nested_lookup` over the elements of a Python list. -/
def nestedLookupList (key : String) : List Val → List Val
  | [] => []
  | d :: rest => nestedLookup key d ++ nestedLookupList key rest

/-- Model of `nested_lookup` over the items of a Python dict. -/
def nestedLookupKvs (key : String) : List (String × Val) → List Val
  | [] => []
  | (k, v) :: rest =>
    (if k == key then [v] else []) ++ nestedLookup key v ++ nestedLookupKvs key rest

end

/-- Occurrence of `key` somewhere in a nested document: as a binding of a dict
in the document tree. This is the specification-level notion of a requirement
field being present; it is defined independently of `nestedLookup` and related
to it below. -/
inductive KeyOccurs (key : String) : Val → Prop where
  | dictHere {kvs : List (String × Val)} {v : Val} (h : (key, v) ∈ kvs) :
      KeyOccurs key (.dict kvs)
  | dictInside {kvs : List (String × Val)} {k : String} {v : Val}
      (h : (k, v) ∈ kvs) (hv : KeyOccurs key v) : KeyOccurs key (.dict kvs)
  | listInside {xs : List Val} {x : Val} (h : x ∈ xs) (hx : KeyOccurs key x) :
      KeyOccurs key (.list xs)

/-- Names of the six contingency checks that
`ContingencyCheck.contingency_check` can register (the `all_impls` keys
`boardfarm.DefaultChecks`, `boardfarm.DNS`, `boardfarm.Cwmp`, `boardfarm.ACS`,
`boardfarm.Multicast`, `boardfarm.CheckInterface`). -/
inductive CheckName where
  | defaultChecks
  | dns
  | cwmp
  | acs
  | multicast
  | checkInterface
deriving Repr, DecidableEq

/-- An `env_req` is a Python dict; this is `env_req.get("environment_def", {})`. -/
def envDef (env_req : List (String × Val)) : Val :=
  (env_req.lookup "environment_def").getD (.dict [])

/-- Plugin selection of `ContingencyCheck.contingency_check`
(contingency_checks.py lines 44-61): start from `DefaultChecks`, append `DNS`,
`Cwmp`, `ACS`, `Multicast` according to the requirement, and finally
`CheckInterface`. The conditions are translated one-to-one:
`nested_lookup("DNS", ...)`, `nested_lookup("cwmp_version", ...)`,
`"tr-069" in env_req.get("environment_def", {})` (a top-level membership test,
which is the only fallible step since `in` on a non-container raises
`TypeError`; the nested lookups are pure, so we case on it first), and
`nested_lookup("multicast_server_count", ...)`. -/
def pluginsToRegister (env_req : List (String × Val)) :
    Except PyError (List CheckName) :=
  match pyIn "tr-069" (envDef env_req) with
  | .error e => .error e
  | .ok tr069Present =>
    .ok ([CheckName.defaultChecks]
      ++ (if (nestedLookup "DNS" (envDef env_req)).isEmpty then []
          else [CheckName.dns])
      ++ (if (nestedLookup "cwmp_version" (envDef env_req)).isEmpty then []
          else [CheckName.cwmp])
      ++ (if tr069Present then [CheckName.acs] else [])
      ++ (if (nestedLookup "multicast_server_count" (envDef env_req)).isEmpty then []
          else [CheckName.multicast])
      ++ [CheckName.checkInterface])

/-- A pluggy hook implementation marker: the `@contingency_impl` decorations of
the `service_check` methods carry `tryfirst`/`trylast` flags. -/
structure HookImpl where
  plugin : CheckName
  tryfirst : Bool := false
  trylast : Bool := false
deriving Repr, DecidableEq

/-- The `service_check` hook implementation registered for each check class.
Only `CheckInterface.service_check` is decorated `@contingency_impl(trylast=True)`
(contingency_checks.py line 110); the others are plain `@contingency_impl`. -/
def serviceCheckImpl : CheckName → HookImpl
  | .checkInterface => { plugin := .checkInterface, trylast := true }
  | c => { plugin := c }

/-- Helper of the pluggy insertion rule: a normal implementation is placed just
before the trailing run of `tryfirst` implementations of the internal list. -/
def insertNormal (h : HookImpl) : List HookImpl → List HookImpl
  | [] => [h]
  | x :: xs =>
    if (x :: xs).all (·.tryfirst) then h :: x :: xs
    else x :: insertNormal h xs

/-- Model of pluggy `_HookCaller._add_hookimpl` for non-wrapper
implementations: a `trylast` implementation is inserted at the front of the
internal list, a `tryfirst` one at the back, and a normal one just before the
trailing `tryfirst` run. The hook is then called in reverse of this internal
list, which is why the source reverses `plugins_to_register` before
registering, as its comment explains (pluggy executes plugins in LIFO order of
registration). -/
def addHookimpl (l : List HookImpl) (h : HookImpl) : List HookImpl :=
  if h.trylast then h :: l
  else if h.tryfirst then l ++ [h]
  else insertNormal h l

/-- Internal pluggy implementation list after
`for i in reversed(plugins_to_register): pm.register(i)`
(contingency_checks.py lines 65-66). -/
def registeredList (plugins : List CheckName) : List HookImpl :=
  plugins.reverse.foldl (fun l c => addHookimpl l (serviceCheckImpl c)) []

/-- Order in which `pm.hook.service_check(...)` invokes the registered checks:
pluggy calls the internal implementation list in reverse. -/
def executionOrder (plugins : List CheckName) : List CheckName :=
  ((registeredList plugins).reverse).map (·.plugin)

/-- List of checks executed by one contingency-check dispatch for a given
environment requirement (or the Python error raised while selecting them). -/
def dispatchOrder (env_req : List (String × Val)) :
    Except PyError (List CheckName) :=
  (pluginsToRegister env_req).map executionOrder

/-- Shape of every possible selection: `DefaultChecks`, then the optional
checks in fixed order according to four selection conditions, then
`CheckInterface`. -/
def mkSelection (b1 b2 b3 b4 : Bool) : List CheckName :=
  [CheckName.defaultChecks]
    ++ (if b1 then [CheckName.dns] else [])
    ++ (if b2 then [CheckName.cwmp] else [])
    ++ (if b3 then [CheckName.acs] else [])
    ++ (if b4 then [CheckName.multicast] else [])
    ++ [CheckName.checkInterface]

/-- Outcomes of the external device/server interactions that the checks
perform. Each field is the observable result of one leaf call into a device
driver or helper; the control flow around them is translated from the source.

Modelled from the spec: `retry_on_exception` and `check_prompts`
(`boardfarm.lib.common`), the device manager and the device handles themselves
are not under `src/`; per the spec they are external collaborators reached
through `by_type` lookups, so their behaviour enters the model only as these
oracle outcomes. -/
structure World where
  /-- Outcome of `check_prompts(wan_devices + lan_devices)` in
  `DefaultChecks.service_check`, as a function of the `voice` flag (which
  changes the device list). -/
  checkPromptsResult : Bool → Except CheckError Unit
  /-- Outcome of the whole device interaction of
  `CheckInterface.service_check`: the acquired address mapping `ip`, or the
  raised failure. -/
  checkInterfaceResult : Except CheckError Val
  /-- Result of `acs.get_interface_ipaddr(acs.iface_dut)` in
  `DNS.service_check`. -/
  acsIpv4 : String
  /-- Result of `acs.get_interface_ip6addr(acs.iface_dut)`. -/
  acsIpv6 : String
  /-- Result of `acs.get_interface_ipaddr(acs.aux_iface_dut)`. -/
  acsIpv4Aux : String
  /-- Result of `acs.get_interface_ip6addr(acs.aux_iface_dut)`. -/
  acsIpv6Aux : String
  /-- Result of `env_helper.get_prov_mode()`. -/
  provMode : String
  /-- Result of `board.dns.nslookup("acs_server.boardfarm.com")`. -/
  nslookupOutput : Val
  /-- Result of `board.domain_ip_reach_check(total_reachable,
  total_unreachable, output)`. -/
  domainIpReachCheck : Val → Val → Val → Bool
  /-- Successive outcomes of
  `acs_server.GPV(("Device.DeviceInfo.SoftwareVersion",))` by attempt index,
  for the retry loop in `ACS.service_check`. -/
  gpvAttempts : Nat → Except PyError Val
  /-- Value of `acs_server.session_connected`, read by
  `check_packet_analysis_enable`. -/
  sessionConnected : Bool
  /-- Whether `board._cpeid` is already set. -/
  cpeidKnown : Bool
  /-- Outcome of `board.get_cpeid()` when `board._cpeid` is unset. -/
  getCpeidResult : Except CheckError Unit
  /-- Result of `board.cwmp_version()`. -/
  boardCwmpVersion : String

/-- Source `DefaultChecks.service_check` (contingency_checks.py lines 76-102):
compute the `voice` flag from the requirement, then run `check_prompts` over
the WAN/LAN (and, with voice, SIP) devices; returns `None`. -/
def DefaultChecks.service_check (w : World) (env_req : List (String × Val)) :
    Except CheckError (Option Val) :=
  match pyIn "voice" (envDef env_req) with
  | .error e => .error (.python e)
  | .ok voice =>
    match w.checkPromptsResult voice with
    | .error e => .error e
    | .ok () => .ok none

/-- Source `CheckInterface.service_check` (contingency_checks.py lines
105-155): its body is entirely interaction with the LAN/WAN device handles and
the environment helper (docker interface bring-up, DHCP client leases, gateway
addresses); we expose the outcome of that interaction as the oracle
`World.checkInterfaceResult` and keep the contract that the acquired mapping
is the hook's return value. -/
def CheckInterface.service_check (w : World) : Except CheckError (Option Val) :=
  match w.checkInterfaceResult with
  | .error e => .error e
  | .ok ip => .ok (some ip)

/-- Source `Cwmp.service_check` (contingency_checks.py lines 260-271): look up
`cwmp_version` in `env_req["environment_def"]`, compare the first hit with
`board.cwmp_version()`, and raise `SkipTest` on mismatch. An empty lookup
makes `env_cwmp_v[0]` raise `IndexError`; a missing `environment_def` raises
`KeyError`. -/
def Cwmp.service_check (w : World) (env_req : List (String × Val)) :
    Except CheckError (Option Val) :=
  match env_req.lookup "environment_def" with
  | none => .error (.python (.keyError "environment_def"))
  | some d =>
    match nestedLookup "cwmp_version" d with
    | [] => .error (.python .indexError)
    | v :: _ =>
      if valEqStr v w.boardCwmpVersion then .ok none
      else .error (.skipTest "Skipping Test: CWMP version mismatch")

/-- Source `Multicast.service_check` (contingency_checks.py lines 274-291):
look up `multicast_server_count` and raise `SkipTest` when the first hit is
below one. Comparing a non-integer with `< 1` raises `TypeError`. -/
def Multicast.service_check (env_req : List (String × Val)) :
    Except CheckError (Option Val) :=
  match env_req.lookup "environment_def" with
  | none => .error (.python (.keyError "environment_def"))
  | some d =>
    match nestedLookup "multicast_server_count" d with
    | [] => .error (.python .indexError)
    | v :: _ =>
      match v with
      | .num n =>
        if n < 1 then
          .error (.skipTest "Skipping Test: Required multicast server count is not specified")
        else .ok none
      | _ => .error (.python (.typeError "comparison not supported"))

/-- Modelled from the spec: `retry_on_exception` (`boardfarm.lib.common`) is
not under `src/`. Per the spec, an external call is retried within an explicit
bounded budget with a fixed per-attempt timeout, and the call either succeeds
within its budget or raises. `retryFrom attempts i n` performs attempt `i` and
up to `n` further attempts after failures, raising the last failure when the
budget is exhausted. -/
def retryFrom (attempts : Nat → Except PyError Val) : Nat → Nat → Except PyError Val
  | i, 0 => attempts i
  | i, n + 1 =>
    match attempts i with
    | .ok v => .ok v
    | .error _ => retryFrom attempts (i + 1) n

/-- Modelled from the spec: entry point of the bounded retry; the per-attempt
timeout is a fixed argument that the pure model carries but does not interpret
(there is no real time here). -/
def retry_on_exception (attempts : Nat → Except PyError Val) (retries _tout : Nat) :
    Except PyError Val :=
  retryFrom attempts 0 retries

/-- Source `ACS.service_check` (contingency_checks.py lines 215-254):
determine `packet_analysis` from `env_req["environment_def"]["tr-069"]`, fetch
the CPE id if unknown, then `check_acs_connection()` = the truthiness of
`retry_on_exception(acs_server.GPV, ..., retries=10, tout=30)`; a falsy result
raises `ContingencyCheckError`. With `packet_analysis`, the inner function
`check_packet_analysis_enable` (which returns `acs_server.session_connected`)
is called but its result is discarded — the source contains no assertion on
it. -/
def ACS.service_check (w : World) (env_req : List (String × Val)) :
    Except CheckError (Option Val) :=
  match env_req.lookup "environment_def" with
  | none => .error (.python (.keyError "environment_def"))
  | some d =>
  match pySubscript d "tr-069" with
  | .error e => .error (.python e)
  | .ok tr =>
  match pyIn "packet_analysis" tr with
  | .error e => .error (.python e)
  | .ok packetAnalysis =>
  match (if w.cpeidKnown then Except.ok () else w.getCpeidResult) with
  | .error e => .error e
  | .ok () =>
  match retry_on_exception w.gpvAttempts 10 30 with
  | .error e => .error (.python e)
  | .ok v =>
    if pyTruthy v then
      -- `if packet_analysis: check_packet_analysis_enable()` reads
      -- `session_connected` and ignores it
      let _ := if packetAnalysis then w.sessionConnected else true
      .ok none
    else .error (.contingencyCheckError "ACS service check Failed.")

/-- Evaluation of `vs[0].get("reachable", 0) > 0` in `DNS.service_check`:
indexing an empty lookup raises `IndexError`, `.get` on a non-dict raises
`AttributeError`, a non-numeric count fails the `>` comparison. -/
def DNS.reachableGt0 (vs : List Val) : Except PyError Bool :=
  match pyIndex0 vs with
  | .error e => .error e
  | .ok e0 =>
    match pyDictGet e0 "reachable" (.num 0) with
    | .error e => .error e
    | .ok r => pyGtNum r 0

/-- Filtering assignment
`output["domain_ip_addr"] = [ip for ip in output["domain_ip_addr"] if ip not in (a, b)]`. -/
def DNS.filterAddrs (output : Val) (a b : String) : Except PyError Val :=
  match pySubscript output "domain_ip_addr" with
  | .error e => .error e
  | .ok (.list ips) =>
    .ok (dictSet output "domain_ip_addr"
      (.list (ips.filter (fun ip => !(valEqStr ip a || valEqStr ip b)))))
  | .ok _ => .error (.typeError "object is not iterable")

/-- One side of the `total_reachable` / `total_unreachable` sums:
`vs[0].get(key, 0) if (vs and prov_mode == mode) else 0`. -/
def DNS.sideCount (w : World) (vs : List Val) (mode key : String) :
    Except PyError Val :=
  if !vs.isEmpty && (w.provMode == mode) then
    match pyIndex0 vs with
    | .error e => .error e
    | .ok e0 => pyDictGet e0 key (.num 0)
  else .ok (.num 0)

/-- Tail of `DNS.service_check` after the address-family filtering: sum the
reachable/unreachable counts relevant to the provisioning mode and fail hard
when `board.domain_ip_reach_check` rejects them. -/
def DNS.finishCheck (w : World) (ipv4 ipv6 : List Val) (output : Val) :
    Except CheckError (Option Val) :=
  match DNS.sideCount w ipv4 "ipv4" "reachable" with
  | .error e => .error (.python e)
  | .ok r4 =>
  match DNS.sideCount w ipv6 "ipv6" "reachable" with
  | .error e => .error (.python e)
  | .ok r6 =>
  match pyAdd r4 r6 with
  | .error e => .error (.python e)
  | .ok totalReachable =>
  match DNS.sideCount w ipv4 "ipv4" "unreachable" with
  | .error e => .error (.python e)
  | .ok u4 =>
  match DNS.sideCount w ipv6 "ipv6" "unreachable" with
  | .error e => .error (.python e)
  | .ok u6 =>
  match pyAdd u4 u6 with
  | .error e => .error (.python e)
  | .ok totalUnreachable =>
    if w.domainIpReachCheck totalReachable totalUnreachable output then .ok none
    else .error (.contingencyCheckError "DNS check for ipv4/ipv6 reachability failed")

/-- Body guarded by `if acs_dns:` in `DNS.service_check`: resolve the
well-known ACS hostname, filter out the address family irrelevant to the
provisioning mode, and run the reachability check. The `elif` condition is
evaluated (with its possible `IndexError`) whenever the first condition is
false, as in the source. -/
def DNS.checkBody (w : World) (acsDns : Val) : Except CheckError (Option Val) :=
  let output := w.nslookupOutput
  let ipv4 := nestedLookup "ipv4" acsDns
  let ipv6 := nestedLookup "ipv6" acsDns
  match DNS.reachableGt0 ipv6 with
  | .error e => .error (.python e)
  | .ok b6 =>
    if b6 && (w.provMode == "ipv4") then
      match DNS.filterAddrs output w.acsIpv6 w.acsIpv6Aux with
      | .error e => .error (.python e)
      | .ok output2 => DNS.finishCheck w ipv4 ipv6 output2
    else
      match DNS.reachableGt0 ipv4 with
      | .error e => .error (.python e)
      | .ok b4 =>
        if b4 && (w.provMode == "ipv6") then
          match DNS.filterAddrs output w.acsIpv4 w.acsIpv4Aux with
          | .error e => .error (.python e)
          | .ok output2 => DNS.finishCheck w ipv4 ipv6 output2
        else DNS.finishCheck w ipv4 ipv6 output

/-- Source `DNS.service_check` (contingency_checks.py lines 158-212). The
local `acs_dns` is assigned only under
`if nested_lookup("ACS_SERVER", dns_env):`; when that lookup is empty the
subsequent `if acs_dns:` reads a never-assigned local and raises
`UnboundLocalError` (a `NameError`). When `acs_dns` is bound but falsy the
check passes silently; otherwise the reachability body runs. -/
def DNS.service_check (w : World) (env_req : List (String × Val)) :
    Except CheckError (Option Val) :=
  match env_req.lookup "environment_def" with
  | none => .error (.python (.keyError "environment_def"))
  | some d =>
    let dnsEnv := nestedLookup "DNS" d
    if (nestedLookupList "ACS_SERVER" dnsEnv).isEmpty then
      .error (.python (.unboundLocalError "acs_dns"))
    else
      match pyIndex0 dnsEnv with
      | .error e => .error (.python e)
      | .ok e0 =>
        match pySubscript e0 "ACS_SERVER" with
        | .error e => .error (.python e)
        | .ok acsDns =>
          if pyTruthy acsDns then DNS.checkBody w acsDns
          else .ok none

/-- Dispatch to one registered check implementation. -/
def runCheck (w : World) (env_req : List (String × Val)) :
    CheckName → Except CheckError (Option Val)
  | .defaultChecks => DefaultChecks.service_check w env_req
  | .dns => DNS.service_check w env_req
  | .cwmp => Cwmp.service_check w env_req
  | .acs => ACS.service_check w env_req
  | .multicast => Multicast.service_check env_req
  | .checkInterface => CheckInterface.service_check w

/-- Model of `pm.hook.service_check(...)`: pluggy invokes the implementations
in execution order, collecting the non-`None` results; an exception from any
implementation propagates immediately and the remaining implementations do not
run. -/
def serviceCheckDispatch (w : World) (env_req : List (String × Val)) :
    List CheckName → Except CheckError (List Val)
  | [] => .ok []
  | c :: rest =>
    match runCheck w env_req c with
    | .error e => .error e
    | .ok r =>
      match serviceCheckDispatch w env_req rest with
      | .error e => .error e
      | .ok rs => .ok (match r with | some v => v :: rs | none => rs)

/-- Modelled from the spec: `BFPluginManager` (`boardfarm.plugins`) is not
under `src/`. Per the spec it is a process-wide table of named plugin managers
with an explicit create/remove lifecycle; `BFPluginManager("contingency")`
makes the named manager live. We track only the list of live manager names. -/
def addManager (st : List String) (name : String) : List String :=
  if st.contains name then st else st ++ [name]

/-- Modelled from the spec: `BFPluginManager.remove_plugin_manager` discards
the named manager. -/
def removeManager (st : List String) (name : String) : List String :=
  st.erase name

/-- Source `ContingencyCheck.contingency_check` (contingency_checks.py lines
22-73): create the feature plugin manager, select and register the checks,
dispatch `service_check`, and then call `remove_plugin_manager("contingency")`.
The removal is the statement after the dispatch — not a `finally` block — so
it only runs when the dispatch returns normally; an exception from any check
propagates with the manager still live. -/
def contingency_check (w : World) (env_req : List (String × Val))
    (st : List String) : Except CheckError (List Val) × List String :=
  let st1 := addManager st "contingency"
  match pluginsToRegister env_req with
  | .error e => (.error (.python e), st1)
  | .ok plugins =>
    match serviceCheckDispatch w env_req (executionOrder plugins) with
    | .error e => (.error e, st1)
    | .ok results => (.ok results, removeManager st1 "contingency")

/-- Parameter names appearing in the boardfarm3 lifecycle hook specifications
(`boardfarm3/plugins/hookspecs/devices.py`). -/
inductive HookParam where
  | config
  | cmdlineArgs
  | pluginManager
  | deviceManager
  | envReq
deriving Repr, DecidableEq

/-- Annotated return of a hook specification. -/
inductive HookRet where
  | nothing
  | deviceManager
  | deviceClassMapping
deriving Repr, DecidableEq

/-- One `@hookspec` declaration: its name, parameter list, whether it was
declared with `firstresult=True`, and its annotated return. -/
structure HookSpecDecl where
  name : String
  params : List HookParam
  firstresult : Bool
  ret : HookRet
deriving Repr, DecidableEq

/-- Declaration
`boardfarm_register_devices(config, cmdline_args, plugin_manager) -> DeviceManager`,
decorated `@hookspec(firstresult=True)` (devices.py lines 42-59). -/
def boardfarm_register_devices : HookSpecDecl :=
  { name := "boardfarm_register_devices"
    params := [.config, .cmdlineArgs, .pluginManager]
    firstresult := true
    ret := .deviceManager }

/-- Declaration `boardfarm_add_devices() -> dict[str, type[BoardfarmDevice]]`
(devices.py lines 62-72). -/
def boardfarm_add_devices : HookSpecDecl :=
  { name := "boardfarm_add_devices"
    params := []
    firstresult := false
    ret := .deviceClassMapping }

/-- Declaration
`validate_device_requirements(config, cmdline_args, device_manager) -> None`. -/
def validate_device_requirements : HookSpecDecl :=
  { name := "validate_device_requirements"
    params := [.config, .cmdlineArgs, .deviceManager]
    firstresult := false
    ret := .nothing }

/-- Declaration `boardfarm_server_boot(config, cmdline_args, device_manager) -> None`. -/
def boardfarm_server_boot : HookSpecDecl :=
  { name := "boardfarm_server_boot"
    params := [.config, .cmdlineArgs, .deviceManager]
    firstresult := false
    ret := .nothing }

/-- Declaration `boardfarm_server_configure(config, cmdline_args, device_manager) -> None`. -/
def boardfarm_server_configure : HookSpecDecl :=
  { name := "boardfarm_server_configure"
    params := [.config, .cmdlineArgs, .deviceManager]
    firstresult := false
    ret := .nothing }

/-- Declaration `boardfarm_device_boot(config, cmdline_args, device_manager) -> None`. -/
def boardfarm_device_boot : HookSpecDecl :=
  { name := "boardfarm_device_boot"
    params := [.config, .cmdlineArgs, .deviceManager]
    firstresult := false
    ret := .nothing }

/-- Declaration `boardfarm_device_configure(config, cmdline_args, device_manager) -> None`. -/
def boardfarm_device_configure : HookSpecDecl :=
  { name := "boardfarm_device_configure"
    params := [.config, .cmdlineArgs, .deviceManager]
    firstresult := false
    ret := .nothing }

/-- Declaration `boardfarm_attached_device_boot(config, cmdline_args, device_manager) -> None`. -/
def boardfarm_attached_device_boot : HookSpecDecl :=
  { name := "boardfarm_attached_device_boot"
    params := [.config, .cmdlineArgs, .deviceManager]
    firstresult := false
    ret := .nothing }

/-- Declaration `boardfarm_attached_device_configure(config, cmdline_args, device_manager) -> None`. -/
def boardfarm_attached_device_configure : HookSpecDecl :=
  { name := "boardfarm_attached_device_configure"
    params := [.config, .cmdlineArgs, .deviceManager]
    firstresult := false
    ret := .nothing }

/-- Declaration `contingency_check(env_req, device_manager) -> None`
(devices.py lines 201-212). It is the per-test check hook, not a lifecycle
phase. -/
def contingency_check_hook : HookSpecDecl :=
  { name := "contingency_check"
    params := [.envReq, .deviceManager]
    firstresult := false
    ret := .nothing }

/-- Declaration `boardfarm_shutdown_device() -> None` (devices.py lines
215-221): it declares no parameters at all. -/
def boardfarm_shutdown_device : HookSpecDecl :=
  { name := "boardfarm_shutdown_device"
    params := []
    firstresult := false
    ret := .nothing }

/-- Lifecycle phase hooks in their phase order
(register → validate → server boot/configure → device boot/configure →
attached-device boot/configure → shutdown). -/
def lifecycleHookSpecs : List HookSpecDecl :=
  [boardfarm_register_devices,
   boardfarm_add_devices,
   validate_device_requirements,
   boardfarm_server_boot,
   boardfarm_server_configure,
   boardfarm_device_boot,
   boardfarm_device_configure,
   boardfarm_attached_device_boot,
   boardfarm_attached_device_configure,
   boardfarm_shutdown_device]

/-- Modelled from the spec: the Hook Registry's `first-result` dispatch
(spec §4.1). The registry implementation (the pluggy plugin manager used by
boardfarm3) is not under `src/`; per the spec, dispatch invokes the registered
implementations in order until one returns a non-empty result, then stops, so
implementations after the producing one are not invoked. The model returns the
result together with the number of implementations invoked. -/
def dispatchFirstResult {α β : Type} (impls : List (α → Option β)) (a : α) :
    Option β × Nat :=
  match impls with
  | [] => (none, 0)
  | f :: rest =>
    match f a with
    | some b => (some b, 1)
    | none =>
      let r := dispatchFirstResult rest a
      (r.1, r.2 + 1)

/-- Selection rule as claim C3 states it, read literally: an optional check is
included exactly when its corresponding requirement field is present (a key of
`environment_def`) and non-empty (Python-truthy value). -/
def specFieldRequested (d : Val) (field : String) : Bool :=
  match d with
  | .dict kvs =>
    match kvs.lookup field with
    | some v => pyTruthy v
    | none => false
  | _ => false

/-- Check list produced by claim C3's stated selection rule, with the code
keys `DNS`, `cwmp_version`, `tr-069`, `multicast_server_count` standing for
the spec fields `dns`, `cwmp_version`, `tr069`, `multicast_server_count`. -/
def claimedSelection (d : Val) : List CheckName :=
  [CheckName.defaultChecks]
    ++ (if specFieldRequested d "DNS" then [CheckName.dns] else [])
    ++ (if specFieldRequested d "cwmp_version" then [CheckName.cwmp] else [])
    ++ (if specFieldRequested d "tr-069" then [CheckName.acs] else [])
    ++ (if specFieldRequested d "multicast_server_count" then [CheckName.multicast] else [])
    ++ [CheckName.checkInterface]

/-- Concrete world where every external interaction succeeds: prompts respond,
the interface check returns an empty mapping, the ACS reports software version
1.0 on the first attempt, no capture session is active, and the device reports
CWMP version 1.0. -/
def w0 : World :=
  { checkPromptsResult := fun _ => .ok ()
    checkInterfaceResult := .ok (.dict [])
    acsIpv4 := "10.1.1.1"
    acsIpv6 := "2001:db8::1"
    acsIpv4Aux := "10.1.1.2"
    acsIpv6Aux := "2001:db8::2"
    provMode := "ipv4"
    nslookupOutput := .dict [("domain_ip_addr", .list [])]
    domainIpReachCheck := fun _ _ _ => true
    gpvAttempts := fun _ => .ok (.str "1.0")
    sessionConnected := false
    cpeidKnown := true
    getCpeidResult := .ok ()
    boardCwmpVersion := "1.0" }

/-- Requirement `{"environment_def": {"cwmp_version": "1.4"}}`. -/
def envCwmpMismatch : List (String × Val) :=
  [("environment_def", .dict [("cwmp_version", .str "1.4")])]

/-- Requirement `{"environment_def": {"cwmp_version": "1.0"}}`. -/
def envCwmpMatch : List (String × Val) :=
  [("environment_def", .dict [("cwmp_version", .str "1.0")])]

/-- Requirement `{"environment_def": {"DNS": []}}`: the `DNS` field is present
but its value is empty. -/
def envEmptyDNS : List (String × Val) :=
  [("environment_def", .dict [("DNS", .list [])])]

/-- Requirement `{"environment_def": {"tr-069": {"packet_analysis": 1}}}`. -/
def envPacketAnalysis : List (String × Val) :=
  [("environment_def", .dict [("tr-069", .dict [("packet_analysis", .num 1)])])]

/-- Requirement `{"environment_def": {"DNS": {"ipv4": 1}}}`: a `DNS` entry with
no `ACS_SERVER` key inside it. -/
def envDnsNoAcsServer : List (String × Val) :=
  [("environment_def", .dict [("DNS", .dict [("ipv4", .num 1)])])]

/-- Requirement `{"environment_def": {"multicast_server_count": 0}}`. -/
def envMulticast0 : List (String × Val) :=
  [("environment_def", .dict [("multicast_server_count", .num 0)])]

/-- Requirement `{"environment_def": {"multicast_server_count": 1}}`. -/
def envMulticast1 : List (String × Val) :=
  [("environment_def", .dict [("multicast_server_count", .num 1)])]

theorem keyOccurs_list_iff {key : String} {xs : List Val} :
    KeyOccurs key (.list xs) ↔ ∃ x ∈ xs, KeyOccurs key x := by
  constructor
  · intro h
    cases h with
    | listInside hmem hx => exact ⟨_, hmem, hx⟩
  · rintro ⟨x, hmem, hx⟩
    exact .listInside hmem hx

theorem keyOccurs_dict_iff {key : String} {kvs : List (String × Val)} :
    KeyOccurs key (.dict kvs) ↔ ∃ p ∈ kvs, p.1 = key ∨ KeyOccurs key p.2 := by
  constructor
  · intro h
    cases h with
    | dictHere hmem => exact ⟨_, hmem, Or.inl rfl⟩
    | dictInside hmem hv => exact ⟨_, hmem, Or.inr hv⟩
  · rintro ⟨⟨k, v⟩, hmem, hkv⟩
    rcases hkv with hk | hv
    · cases hk
      exact .dictHere hmem
    · exact .dictInside hmem hv

theorem nestedLookupList_eq_nil {key : String} {xs : List Val} :
    nestedLookupList key xs = [] ↔ ∀ x ∈ xs, nestedLookup key x = [] := by
  induction xs with
  | nil => simp [nestedLookupList]
  | cons d rest ih => simp [nestedLookupList, ih]

theorem nestedLookupKvs_eq_nil {key : String} {kvs : List (String × Val)} :
    nestedLookupKvs key kvs = [] ↔
      ∀ p ∈ kvs, p.1 ≠ key ∧ nestedLookup key p.2 = [] := by
  induction kvs with
  | nil => simp [nestedLookupKvs]
  | cons p rest ih =>
    obtain ⟨k, v⟩ := p
    by_cases hk : k = key
    · subst hk
      simp [nestedLookupKvs, ih]
    · simp [nestedLookupKvs, hk, ih]

theorem nestedLookup_eq_nil_bounded {key : String} :
    ∀ (n : Nat) (doc : Val), sizeOf doc ≤ n →
      (nestedLookup key doc = [] ↔ ¬ KeyOccurs key doc) := by
  intro n
  induction n with
  | zero =>
    intro doc h
    cases doc <;> simp_all
  | succ n ih =>
    intro doc hle
    match doc with
    | .str s =>
      constructor
      · intro _ h
        cases h
      · intro _
        simp [nestedLookup]
    | .num m =>
      constructor
      · intro _ h
        cases h
      · intro _
        simp [nestedLookup]
    | .list xs =>
      rw [show nestedLookup key (.list xs) = nestedLookupList key xs from by
          simp [nestedLookup],
        nestedLookupList_eq_nil, keyOccurs_list_iff]
      have hmem : ∀ x ∈ xs, (nestedLookup key x = [] ↔ ¬ KeyOccurs key x) := by
        intro x hx
        apply ih
        have h1 : sizeOf x < sizeOf xs := List.sizeOf_lt_of_mem hx
        have h2 : sizeOf (Val.list xs) = 1 + sizeOf xs := by simp
        omega
      constructor
      · intro h hex
        rcases hex with ⟨x, hx, hkx⟩
        exact ((hmem x hx).mp (h x hx)) hkx
      · intro h x hx
        exact (hmem x hx).mpr (fun hkx => h ⟨x, hx, hkx⟩)
    | .dict kvs =>
      rw [show nestedLookup key (.dict kvs) = nestedLookupKvs key kvs from by
          simp [nestedLookup],
        nestedLookupKvs_eq_nil, keyOccurs_dict_iff]
      have hmem : ∀ p ∈ kvs, (nestedLookup key p.2 = [] ↔ ¬ KeyOccurs key p.2) := by
        intro p hp
        apply ih
        have h1 : sizeOf p < sizeOf kvs := List.sizeOf_lt_of_mem hp
        have h2 : sizeOf (Val.dict kvs) = 1 + sizeOf kvs := by simp
        obtain ⟨a, b⟩ := p
        simp only [Prod.mk.sizeOf_spec] at h1
        simp only []
        omega
      constructor
      · intro h hex
        rcases hex with ⟨p, hp, hk | hkv⟩
        · exact (h p hp).1 hk
        · exact ((hmem p hp).mp (h p hp).2) hkv
      · intro h p hp
        refine ⟨fun hk => h ⟨p, hp, Or.inl hk⟩, ?_⟩
        exact (hmem p hp).mpr (fun hkv => h ⟨p, hp, Or.inr hkv⟩)

/-- The deep search of `nested_lookup` finds something exactly when the key
occurs somewhere in the document. -/
theorem keyOccurs_iff (key : String) (doc : Val) :
    (nestedLookup key doc).isEmpty = false ↔ KeyOccurs key doc := by
  have h := @nestedLookup_eq_nil_bounded key (sizeOf doc) doc le_rfl
  cases hE : nestedLookup key doc with
  | nil =>
    simp only [List.isEmpty_nil]
    rw [hE] at h
    simp only [true_iff] at h
    simp [h]
  | cons a l =>
    simp only [List.isEmpty_cons]
    rw [hE] at h
    simp only [List.cons_ne_nil, false_iff, not_not] at h
    simp [h]

theorem not_keyOccurs_of_isEmpty {key : String} {v : Val}
    (h : (nestedLookup key v).isEmpty = true) : ¬ KeyOccurs key v := by
  intro hk
  rw [← keyOccurs_iff key v] at hk
  rw [h] at hk
  cases hk

theorem isEmpty_of_not_keyOccurs {key : String} {v : Val}
    (h : ¬ KeyOccurs key v) : (nestedLookup key v).isEmpty = true := by
  cases hE : (nestedLookup key v).isEmpty with
  | false => exact absurd ((keyOccurs_iff key v).mp hE) h
  | true => rfl

theorem keyOccurs_iff_true_of_not_isEmpty {key : String} {v : Val}
    (h : (nestedLookup key v).isEmpty = false) : KeyOccurs key v ↔ true = true := by
  simp [(keyOccurs_iff key v).mp h]

theorem keyOccurs_iff_false_of_isEmpty {key : String} {v : Val}
    (h : (nestedLookup key v).isEmpty = true) : KeyOccurs key v ↔ false = true := by
  constructor
  · intro hk
    have hf := (keyOccurs_iff key v).mpr hk
    rw [h] at hf
    cases hf
  · intro hb
    cases hb

theorem not_isEmpty_eq_of_keyOccurs_iff {key : String} {v : Val} {b : Bool}
    (h : KeyOccurs key v ↔ b = true) : (!(nestedLookup key v).isEmpty) = b := by
  cases hE : (nestedLookup key v).isEmpty with
  | false =>
    have hb : b = true := h.mp ((keyOccurs_iff key v).mp hE)
    rw [hb]
    rfl
  | true =>
    cases b with
    | false => rfl
    | true =>
      have hk : KeyOccurs key v := h.mpr rfl
      have hf : (nestedLookup key v).isEmpty = false := (keyOccurs_iff key v).mpr hk
      rw [hE] at hf
      cases hf

theorem valEqStr_eq_true_iff {v : Val} {s : String} :
    valEqStr v s = true ↔ v = Val.str s := by
  cases v <;> simp [valEqStr]

theorem pluginsToRegister_eq (env_req : List (String × Val)) (tr : Bool)
    (h : pyIn "tr-069" (envDef env_req) = .ok tr) :
    pluginsToRegister env_req = .ok (mkSelection
      (!(nestedLookup "DNS" (envDef env_req)).isEmpty)
      (!(nestedLookup "cwmp_version" (envDef env_req)).isEmpty)
      tr
      (!(nestedLookup "multicast_server_count" (envDef env_req)).isEmpty)) := by
  rw [pluginsToRegister, h]
  cases (nestedLookup "DNS" (envDef env_req)).isEmpty
    <;> cases (nestedLookup "cwmp_version" (envDef env_req)).isEmpty
    <;> cases (nestedLookup "multicast_server_count" (envDef env_req)).isEmpty
    <;> simp [mkSelection]

/-- Despite the reversal of the registration list and the `trylast` marker on
`CheckInterface`, pluggy's LIFO calling convention reproduces exactly the
logical selection order. -/
theorem executionOrder_mkSelection :
    ∀ b1 b2 b3 b4 : Bool,
      executionOrder (mkSelection b1 b2 b3 b4) = mkSelection b1 b2 b3 b4 := by
  decide

theorem mkSelection_head_getLast :
    ∀ b1 b2 b3 b4 : Bool,
      (mkSelection b1 b2 b3 b4).head? = some CheckName.defaultChecks ∧
        (mkSelection b1 b2 b3 b4).getLast? = some CheckName.checkInterface := by
  decide

theorem pluginsToRegister_envCwmpMismatch :
    pluginsToRegister envCwmpMismatch =
      .ok [CheckName.defaultChecks, CheckName.cwmp, CheckName.checkInterface] := by
  simp +decide [pluginsToRegister, envDef, envCwmpMismatch, pyIn,
    nestedLookup, nestedLookupKvs, nestedLookupList]

theorem dispatchOrder_envCwmpMismatch :
    dispatchOrder envCwmpMismatch =
      .ok [CheckName.defaultChecks, CheckName.cwmp, CheckName.checkInterface] := by
  unfold dispatchOrder
  rw [pluginsToRegister_envCwmpMismatch]
  rfl

theorem cwmp_skip_envCwmpMismatch :
    Cwmp.service_check w0 envCwmpMismatch =
      .error (.skipTest "Skipping Test: CWMP version mismatch") := by
  unfold Cwmp.service_check
  simp +decide [envCwmpMismatch, nestedLookup, nestedLookupKvs, valEqStr, w0]

theorem dispatchFirstResult_append {α β : Type} (post : List (α → Option β))
    (f : α → Option β) (a : α) (b : β) (hf : f a = some b) :
    ∀ pre : List (α → Option β), (∀ g ∈ pre, g a = none) →
      dispatchFirstResult (pre ++ f :: post) a = (some b, pre.length + 1) := by
  intro pre
  induction pre with
  | nil =>
    intro _
    simp [dispatchFirstResult, hf]
  | cons g rest ih =>
    intro hpre
    have hg : g a = none := hpre g (by simp)
    have ihr := ih (fun g' hg' => hpre g' (by simp [hg']))
    simp [dispatchFirstResult, hg, ihr]

/-- C1: for every environment requirement whose check selection succeeds,
`DefaultChecks` is the first check executed and `CheckInterface` is the last
check executed by the contingency-check dispatch, regardless of which optional
checks (DNS, Cwmp, ACS, Multicast) are selected. -/
theorem defaultChecks_first_checkInterface_last (env_req : List (String × Val))
    (order : List CheckName) (h : dispatchOrder env_req = .ok order) :
    order.head? = some CheckName.defaultChecks ∧
      order.getLast? = some CheckName.checkInterface := by
  cases htr : pyIn "tr-069" (envDef env_req) with
  | error e =>
    unfold dispatchOrder pluginsToRegister at h
    rw [htr] at h
    simp [Except.map] at h
  | ok tr =>
    have heq := pluginsToRegister_eq env_req tr htr
    unfold dispatchOrder at h
    rw [heq] at h
    have hord : executionOrder (mkSelection
        (!(nestedLookup "DNS" (envDef env_req)).isEmpty)
        (!(nestedLookup "cwmp_version" (envDef env_req)).isEmpty) tr
        (!(nestedLookup "multicast_server_count" (envDef env_req)).isEmpty)) = order := by
      simpa [Except.map] using h
    rw [executionOrder_mkSelection] at hord
    rw [← hord]
    exact mkSelection_head_getLast _ _ _ _

/-- C1 (witness): for the requirement with a `cwmp_version` field, the
executed check list is `[DefaultChecks, Cwmp, CheckInterface]`, whose first
element is `DefaultChecks` and whose last is `CheckInterface`. -/
theorem defaultChecks_first_checkInterface_last_witness :
    [CheckName.defaultChecks, CheckName.cwmp, CheckName.checkInterface].head? =
        some CheckName.defaultChecks ∧
      [CheckName.defaultChecks, CheckName.cwmp, CheckName.checkInterface].getLast? =
        some CheckName.checkInterface :=
  defaultChecks_first_checkInterface_last envCwmpMismatch
    [CheckName.defaultChecks, CheckName.cwmp, CheckName.checkInterface]
    dispatchOrder_envCwmpMismatch

/-- C2: the ephemeral `"contingency"` plugin manager is NOT torn down when a
registered check raises: on the cwmp-mismatch requirement the dispatch raises
`SkipTest` and `contingency_check` returns with the manager still live
(`["contingency"]`), while on a requirement with no optional fields the
dispatch succeeds and the manager is removed. The removal at
contingency_checks.py line 72 runs only after a normal dispatch return, so
registrations do leak into the next invocation whenever any check fails or
skips. -/
theorem contingency_registry_not_torn_down_on_raise :
    contingency_check w0 envCwmpMismatch [] =
        (.error (.skipTest "Skipping Test: CWMP version mismatch"), ["contingency"]) ∧
      contingency_check w0 [] [] = (.ok [Val.dict []], []) := by
  constructor
  · have hD : DefaultChecks.service_check w0 envCwmpMismatch = .ok none := rfl
    have hDisp : serviceCheckDispatch w0 envCwmpMismatch
        [CheckName.defaultChecks, CheckName.cwmp, CheckName.checkInterface] =
        .error (.skipTest "Skipping Test: CWMP version mismatch") := by
      simp [serviceCheckDispatch, runCheck, hD, cwmp_skip_envCwmpMismatch]
    have hE : executionOrder
        [CheckName.defaultChecks, CheckName.cwmp, CheckName.checkInterface] =
        [CheckName.defaultChecks, CheckName.cwmp, CheckName.checkInterface] := by decide
    simp [contingency_check, pluginsToRegister_envCwmpMismatch, hE, hDisp, addManager]
  · have hP : pluginsToRegister [] =
        .ok [CheckName.defaultChecks, CheckName.checkInterface] := by
      simp +decide [pluginsToRegister, envDef, pyIn, nestedLookup, nestedLookupKvs]
    have hE : executionOrder [CheckName.defaultChecks, CheckName.checkInterface] =
        [CheckName.defaultChecks, CheckName.checkInterface] := by decide
    have hDisp : serviceCheckDispatch w0 []
        [CheckName.defaultChecks, CheckName.checkInterface] = .ok [Val.dict []] := rfl
    simp +decide [contingency_check, hP, hE, hDisp, addManager, removeManager]

/-- C3 (counterexample): for the requirement
`{"environment_def": {"DNS": []}}` the `DNS` field is present but empty, so
the claimed present-and-non-empty selection rule excludes the DNS check, yet
the code's dispatch includes and runs it. -/
theorem dns_selected_despite_empty_field :
    dispatchOrder envEmptyDNS =
        .ok [CheckName.defaultChecks, CheckName.dns, CheckName.checkInterface] ∧
      specFieldRequested (envDef envEmptyDNS) "DNS" = false ∧
      claimedSelection (envDef envEmptyDNS) =
        [CheckName.defaultChecks, CheckName.checkInterface] := by
  refine ⟨?_, by decide, by decide⟩
  have hP : pluginsToRegister envEmptyDNS =
      .ok [CheckName.defaultChecks, CheckName.dns, CheckName.checkInterface] := by
    simp +decide [pluginsToRegister, envDef, envEmptyDNS, pyIn,
      nestedLookup, nestedLookupKvs, nestedLookupList]
  unfold dispatchOrder
  rw [hP]
  rfl

/-- C3 (amended): an optional check is included in the dispatch exactly when
the code's presence test for its key succeeds — for DNS, Cwmp and Multicast,
when a deep nested lookup finds the key (`DNS`, `cwmp_version`,
`multicast_server_count`) anywhere inside `environment_def`, regardless of the
value (even empty); for ACS, when `tr-069` is a top-level key of
`environment_def` — and selection is tested in the fixed order
DNS, Cwmp, ACS, Multicast between `DefaultChecks` and `CheckInterface`. -/
theorem selection_characterized_by_key_occurrence (env_req : List (String × Val))
    (tr b1 b2 b4 : Bool)
    (htr : pyIn "tr-069" (envDef env_req) = .ok tr)
    (h1 : KeyOccurs "DNS" (envDef env_req) ↔ b1 = true)
    (h2 : KeyOccurs "cwmp_version" (envDef env_req) ↔ b2 = true)
    (h4 : KeyOccurs "multicast_server_count" (envDef env_req) ↔ b4 = true) :
    dispatchOrder env_req = .ok (mkSelection b1 b2 tr b4) := by
  have heq := pluginsToRegister_eq env_req tr htr
  rw [not_isEmpty_eq_of_keyOccurs_iff h1, not_isEmpty_eq_of_keyOccurs_iff h2,
    not_isEmpty_eq_of_keyOccurs_iff h4] at heq
  unfold dispatchOrder
  rw [heq]
  show Except.ok (executionOrder (mkSelection b1 b2 tr b4)) = _
  rw [executionOrder_mkSelection]

/-- C3 (witness): for `{"environment_def": {"DNS": []}}` the key `DNS` occurs,
`tr-069` is absent, and the dispatched list is the selection with exactly the
DNS check included. -/
theorem selection_characterized_by_key_occurrence_witness :
    dispatchOrder envEmptyDNS = .ok (mkSelection true false false false) :=
  selection_characterized_by_key_occurrence envEmptyDNS false true false false
    rfl
    (keyOccurs_iff_true_of_not_isEmpty (by
      simp +decide [envDef, envEmptyDNS, nestedLookup, nestedLookupKvs, nestedLookupList]))
    (keyOccurs_iff_false_of_isEmpty (by
      simp +decide [envDef, envEmptyDNS, nestedLookup, nestedLookupKvs, nestedLookupList]))
    (keyOccurs_iff_false_of_isEmpty (by
      simp +decide [envDef, envEmptyDNS, nestedLookup, nestedLookupKvs, nestedLookupList]))

/-- C4: for every environment requirement with none of the optional fields
set — no `DNS`, `cwmp_version` or `multicast_server_count` key occurring in
`environment_def` and the `tr-069` membership test false — the
contingency-check dispatch executes exactly `[DefaultChecks, CheckInterface]`,
in that order. -/
theorem no_optional_fields_exact_two_checks (env_req : List (String × Val))
    (h1 : ¬ KeyOccurs "DNS" (envDef env_req))
    (h2 : ¬ KeyOccurs "cwmp_version" (envDef env_req))
    (h3 : pyIn "tr-069" (envDef env_req) = .ok false)
    (h4 : ¬ KeyOccurs "multicast_server_count" (envDef env_req)) :
    dispatchOrder env_req =
      .ok [CheckName.defaultChecks, CheckName.checkInterface] := by
  have heq := pluginsToRegister_eq env_req false h3
  rw [isEmpty_of_not_keyOccurs h1, isEmpty_of_not_keyOccurs h2,
    isEmpty_of_not_keyOccurs h4] at heq
  unfold dispatchOrder
  rw [heq]
  rfl

/-- C4 (witness): the empty requirement has no optional fields, and its
dispatch is exactly `[DefaultChecks, CheckInterface]`. -/
theorem no_optional_fields_exact_two_checks_witness :
    dispatchOrder [] = .ok [CheckName.defaultChecks, CheckName.checkInterface] :=
  no_optional_fields_exact_two_checks []
    (not_keyOccurs_of_isEmpty (by simp [envDef, nestedLookup, nestedLookupKvs]))
    (not_keyOccurs_of_isEmpty (by simp [envDef, nestedLookup, nestedLookupKvs]))
    rfl
    (not_keyOccurs_of_isEmpty (by simp [envDef, nestedLookup, nestedLookupKvs]))

/-- C5: with `packet_analysis` requested, `ACS.service_check` completes
successfully whatever the value of `session_connected` — the inner
`check_packet_analysis_enable` is called but its result discarded, so no
failure is raised when the capture session is inactive. The retry part does
hold: an exhausted GPV retry budget raises `ContingencyCheckError` when the
final value is falsy, and propagates the final exception when every attempt
raises. -/
theorem acs_packet_analysis_not_asserted :
    (∀ b : Bool,
      ACS.service_check { w0 with sessionConnected := b } envPacketAnalysis = .ok none) ∧
      ACS.service_check { w0 with gpvAttempts := fun _ => .ok (.str "") } envPacketAnalysis =
        .error (.contingencyCheckError "ACS service check Failed.") ∧
      ACS.service_check
          { w0 with gpvAttempts := fun _ => .error (.typeError "no cpe response") }
          envPacketAnalysis =
        .error (.python (.typeError "no cpe response")) :=
  ⟨fun _ => rfl, rfl, rfl⟩

/-- C6: for every requirement containing `cwmp_version`, when the first looked
up version differs from the version the device reports, `Cwmp.service_check`
raises `SkipTest "Skipping Test: CWMP version mismatch"`; when they match it
passes silently (returns `None`). -/
theorem cwmp_version_mismatch_skips (w : World) (env_req : List (String × Val))
    (d v : Val) (rest : List Val)
    (hd : env_req.lookup "environment_def" = some d)
    (hv : nestedLookup "cwmp_version" d = v :: rest) :
    (v = Val.str w.boardCwmpVersion → Cwmp.service_check w env_req = .ok none) ∧
      (v ≠ Val.str w.boardCwmpVersion →
        Cwmp.service_check w env_req =
          .error (.skipTest "Skipping Test: CWMP version mismatch")) := by
  have hrun : Cwmp.service_check w env_req =
      (if valEqStr v w.boardCwmpVersion then .ok none
       else .error (.skipTest "Skipping Test: CWMP version mismatch")) := by
    unfold Cwmp.service_check
    simp only [hd, hv]
  constructor
  · intro hveq
    have hb : valEqStr v w.boardCwmpVersion = true := valEqStr_eq_true_iff.mpr hveq
    rw [hrun, hb]
    rfl
  · intro hne
    have hb : valEqStr v w.boardCwmpVersion = false := by
      cases hb : valEqStr v w.boardCwmpVersion with
      | true => exact absurd (valEqStr_eq_true_iff.mp hb) hne
      | false => rfl
    rw [hrun, hb]
    rfl

/-- C6 (witness): requirement `{cwmp_version: "1.4"}` against a device
reporting `"1.0"` skips with the mismatch message; `{cwmp_version: "1.0"}`
passes silently. -/
theorem cwmp_version_mismatch_skips_witness :
    Cwmp.service_check w0 envCwmpMismatch =
        .error (.skipTest "Skipping Test: CWMP version mismatch") ∧
      Cwmp.service_check w0 envCwmpMatch = .ok none :=
  ⟨(cwmp_version_mismatch_skips w0 envCwmpMismatch
      (.dict [("cwmp_version", .str "1.4")]) (.str "1.4") [] rfl
      (by simp +decide [nestedLookup, nestedLookupKvs])).2
      (by simp [w0]),
    (cwmp_version_mismatch_skips w0 envCwmpMatch
      (.dict [("cwmp_version", .str "1.0")]) (.str "1.0") [] rfl
      (by simp +decide [nestedLookup, nestedLookupKvs])).1 rfl⟩

/-- C7: for every requirement containing `multicast_server_count`, the
Multicast check raises `SkipTest` (not a hard failure) when the first looked
up count is below one, and passes silently when the count is at least one. -/
theorem multicast_count_below_one_skips (env_req : List (String × Val))
    (d : Val) (n : Int) (rest : List Val)
    (hd : env_req.lookup "environment_def" = some d)
    (hv : nestedLookup "multicast_server_count" d = Val.num n :: rest) :
    (n < 1 → Multicast.service_check env_req =
        .error (.skipTest "Skipping Test: Required multicast server count is not specified")) ∧
      (1 ≤ n → Multicast.service_check env_req = .ok none) := by
  have hrun : Multicast.service_check env_req =
      (if n < 1 then
        .error (.skipTest "Skipping Test: Required multicast server count is not specified")
       else .ok none) := by
    unfold Multicast.service_check
    simp only [hd, hv]
  constructor
  · intro hlt
    rw [hrun, if_pos hlt]
  · intro hge
    rw [hrun, if_neg (by omega)]

/-- C7 (witness): requirement `{multicast_server_count: 0}` skips;
`{multicast_server_count: 1}` passes silently. -/
theorem multicast_count_below_one_skips_witness :
    Multicast.service_check envMulticast0 =
        .error (.skipTest "Skipping Test: Required multicast server count is not specified") ∧
      Multicast.service_check envMulticast1 = .ok none :=
  ⟨(multicast_count_below_one_skips envMulticast0
      (.dict [("multicast_server_count", .num 0)]) 0 [] rfl
      (by simp +decide [nestedLookup, nestedLookupKvs])).1 (by decide),
    (multicast_count_below_one_skips envMulticast1
      (.dict [("multicast_server_count", .num 1)]) 1 [] rfl
      (by simp +decide [nestedLookup, nestedLookupKvs])).2 (by decide)⟩

/-- C8: the `register_devices` lifecycle hook is declared `firstresult=True`,
and in first-result dispatch the first registered implementation that produces
a result wins: with every earlier implementation producing nothing and `f`
producing `b`, dispatch returns `b` having invoked only the implementations up
to and including `f` — the later ones are not invoked. -/
theorem register_devices_first_result {α β : Type}
    (pre post : List (α → Option β)) (f : α → Option β) (a : α) (b : β)
    (hpre : ∀ g ∈ pre, g a = none) (hf : f a = some b) :
    boardfarm_register_devices.firstresult = true ∧
      dispatchFirstResult (pre ++ f :: post) a = (some b, pre.length + 1) :=
  ⟨rfl, dispatchFirstResult_append post f a b hf pre hpre⟩

/-- C8 (witness): with one earlier non-producing implementation, a producing
one, and one more after it, dispatch returns the produced value having invoked
exactly two implementations. -/
theorem register_devices_first_result_witness :
    boardfarm_register_devices.firstresult = true ∧
      dispatchFirstResult
          ([fun _ : Nat => (none : Option Nat)] ++
            (fun _ : Nat => some 7) :: [fun _ : Nat => some 8]) 0 =
        (some 7, [fun _ : Nat => (none : Option Nat)].length + 1) :=
  register_devices_first_result [fun _ => none] [fun _ => some 8]
    (fun _ => some 7) 0 7
    (by
      intro g hg
      simp only [List.mem_singleton] at hg
      subst hg
      rfl)
    rfl

/-- C9 (counterexample): it is not the case that every lifecycle phase hook
other than `register_devices` and `add_devices` receives
`(config, cmdline_args, device_manager)` and returns nothing:
`boardfarm_shutdown_device` receives no parameters at all. -/
theorem lifecycle_uniform_signature_false :
    ¬ (∀ s ∈ lifecycleHookSpecs,
        s ≠ boardfarm_register_devices → s ≠ boardfarm_add_devices →
          s.params = [HookParam.config, HookParam.cmdlineArgs, HookParam.deviceManager] ∧
            s.ret = HookRet.nothing) := by
  decide

/-- C9 (amended): every lifecycle phase hook receives
`(config, cmdline_args, device_manager)` and returns nothing, with exactly
three exceptions: `register_devices` receives the plugin manager as its third
parameter and returns a Device Manager, the add-known-devices hook receives no
parameters and returns a device-name-to-class mapping, and the shutdown hook
receives no parameters and returns nothing. -/
theorem lifecycle_signatures :
    (∀ s ∈ lifecycleHookSpecs,
        s ≠ boardfarm_register_devices → s ≠ boardfarm_add_devices →
          s ≠ boardfarm_shutdown_device →
            s.params = [HookParam.config, HookParam.cmdlineArgs, HookParam.deviceManager] ∧
              s.ret = HookRet.nothing) ∧
      boardfarm_register_devices.params =
          [HookParam.config, HookParam.cmdlineArgs, HookParam.pluginManager] ∧
      boardfarm_register_devices.ret = HookRet.deviceManager ∧
      boardfarm_add_devices.params = [] ∧
      boardfarm_add_devices.ret = HookRet.deviceClassMapping ∧
      boardfarm_shutdown_device.params = [] ∧
      boardfarm_shutdown_device.ret = HookRet.nothing := by
  refine ⟨?_, rfl, rfl, rfl, rfl, rfl, rfl⟩
  decide

/-- C9 (witness): `validate_device_requirements` is a non-exceptional phase
hook with the standard parameters and no return. -/
theorem lifecycle_signatures_witness :
    validate_device_requirements.params =
        [HookParam.config, HookParam.cmdlineArgs, HookParam.deviceManager] ∧
      validate_device_requirements.ret = HookRet.nothing :=
  lifecycle_signatures.1 validate_device_requirements
    (by decide) (by decide) (by decide) (by decide)

/-- C10: for every environment requirement whose `environment_def` contains a
DNS entry with no `ACS_SERVER` key anywhere inside the DNS lookup results, the
DNS check raises the unclassified `UnboundLocalError` (a `NameError`) for the
never-assigned local `acs_dns`, rather than a classified failure, skip, or a
silent pass. -/
theorem dns_missing_acs_server_raises_name_error (w : World)
    (env_req : List (String × Val)) (d : Val)
    (hd : env_req.lookup "environment_def" = some d)
    (_hDNS : nestedLookup "DNS" d ≠ [])
    (hNoAcs : nestedLookupList "ACS_SERVER" (nestedLookup "DNS" d) = []) :
    DNS.service_check w env_req = .error (.python (.unboundLocalError "acs_dns")) := by
  unfold DNS.service_check
  simp [hd, hNoAcs]

/-- C10 (witness): the requirement
`{"environment_def": {"DNS": {"ipv4": 1}}}` has a DNS entry without
`ACS_SERVER`, and the DNS check raises `UnboundLocalError("acs_dns")`. -/
theorem dns_missing_acs_server_raises_name_error_witness :
    DNS.service_check w0 envDnsNoAcsServer =
      .error (.python (.unboundLocalError "acs_dns")) :=
  dns_missing_acs_server_raises_name_error w0 envDnsNoAcsServer
    (.dict [("DNS", .dict [("ipv4", .num 1)])]) rfl
    (by simp +decide [nestedLookup, nestedLookupKvs, nestedLookupList])
    (by simp +decide [nestedLookup, nestedLookupKvs, nestedLookupList])
